import Mathlib

/-!
Verification of the Luxafor Dot BLE constants module (`luxafor_ble/const.py`).

The module defines a vocabulary of protocol identifiers: Bluetooth names of
supported devices, a UUID template for expanding 16-bit characteristic short
codes into full 128-bit UUIDs, a MAC-address pattern, and five closed integer
enumerations (`DotCharacteristic`, `LuxaforLED`, `LuxaforCommand`,
`LuxaforWavePattern`, `LuxaforPattern`, `PushEvent`).

The shallow embedding below translates each of these into Lean: enumerations
become inductive types with a `value` function and a raw-integer lookup that
mirrors Python's `IntEnum` construction (succeed on a member value, raise
`ValueError` otherwise); the UUID derivation models Python's
`UUID(UUID_TEMPLATE.format(value))`, including the string normalisation the
`uuid.UUID` constructor performs before parsing the 32 hex digits.
-/

/-- Bluetooth names of supported devices (`LUXAFOR_BLUETOOTH_NAMES`);
the source only checks the first 7 characters of a discovered name. -/
def LUXAFOR_BLUETOOTH_NAMES : List String := ["lux dot"]

/-- Placeholder value used to fill in blank values (`LUXAFOR_DONT_CARE`). -/
def LUXAFOR_DONT_CARE : Nat := 0x00

/-- Is `c` an ASCII hexadecimal digit (either case)? Models the character
class `[0-9A-Fa-f]` and the digits accepted by Python's `int(s, 16)`. -/
def isHexDigitChar (c : Char) : Bool :=
  (('0' ≤ c) && (c ≤ '9')) || (('A' ≤ c) && (c ≤ 'F')) || (('a' ≤ c) && (c ≤ 'f'))

/-- Numeric value of a hexadecimal digit character. -/
def hexDigitVal (c : Char) : Nat :=
  if ('0' ≤ c) && (c ≤ '9') then c.toNat - '0'.toNat
  else if ('A' ≤ c) && (c ≤ 'F') then c.toNat - 'A'.toNat + 10
  else c.toNat - 'a'.toNat + 10

/-- Value of a string of hexadecimal digits, most significant first.
Models `int(hex, 16)` on a string of plain hex digits. -/
def hexToNat (l : List Char) : Nat :=
  l.foldl (fun acc c => acc * 16 + hexDigitVal c) 0

/-- Left-pad a digit string with `'0'` up to width `w`. Models the
`0>w` fill-and-align part of Python format specs such as `{:0>4x}`. -/
def padLeftZero (w : Nat) (l : List Char) : List Char :=
  List.replicate (w - l.length) '0' ++ l

/-- `"0000{:0>4x}-0000-1000-8000-00805f9b34fb".format(v)`: the fixed
Luxafor BLE `UUID_TEMPLATE` with `v` substituted as zero-padded
lowercase hexadecimal of width at least 4.  `Nat.toDigits 16` produces
lowercase hex digits with no leading zeros, as `{:x}` does. -/
def UUID_TEMPLATE_format (v : Nat) : String :=
  String.mk ("0000".data ++ padLeftZero 4 (Nat.toDigits 16 v)
    ++ "-0000-1000-8000-00805f9b34fb".data)

/-- Remove every (left-to-right, non-overlapping) occurrence of the
non-empty pattern `pat` from `l`.  Models Python's
`str.replace(pat, "")`.  The first argument is fuel, instantiated with
the length of the list so the recursion is structural. -/
def removeOccAux (pat : List Char) : Nat → List Char → List Char
  | _, [] => []
  | 0, l => l
  | fuel + 1, c :: rest =>
    if pat ≠ [] && pat.isPrefixOf (c :: rest) then
      removeOccAux pat fuel (List.drop (pat.length - 1) rest)
    else
      c :: removeOccAux pat fuel rest

/-- `str.replace(pat, "")` for a non-empty pattern `pat`. -/
def removeOcc (pat : List Char) (l : List Char) : List Char :=
  removeOccAux pat l.length l

/-- Strip leading and trailing curly-brace characters. Models Python's
`str.strip` with the two brace characters (codes 123 and 125) as the
character set, as done by the `uuid.UUID` constructor. -/
def stripBraces (l : List Char) : List Char :=
  let isBrace : Char → Bool := fun c => c == Char.ofNat 123 || c == Char.ofNat 125
  ((l.dropWhile isBrace).reverse.dropWhile isBrace).reverse

/-- The string-normalisation and parse performed by Python's
`uuid.UUID(hex=s)` constructor: drop `urn:` and `uuid:` occurrences,
strip surrounding braces, drop hyphens, then require exactly 32
hexadecimal digits and read them as a 128-bit integer.  Returns `none`
where CPython raises `ValueError`.  (The sign/underscore/whitespace
forms that `int(s, 16)` would additionally tolerate inside a 32-column
string are not modelled.) -/
def pyUUID_fromHex (s : String) : Option Nat :=
  let h := removeOcc "uuid:".data (removeOcc "urn:".data s.data)
  let h := removeOcc ['-'] (stripBraces h)
  if h.length == 32 && h.all isHexDigitChar then some (hexToNat h) else none

/-- Canonical textual form of a UUID given as a 128-bit integer:
32 lowercase hex digits, hyphenated 8-4-4-4-12.  Models `str(UUID(...))`. -/
def uuidCanonicalString (n : Nat) : String :=
  let d := padLeftZero 32 (Nat.toDigits 16 n)
  String.mk (d.take 8 ++ '-' :: (d.drop 8).take 4 ++ '-' :: (d.drop 12).take 4
    ++ '-' :: (d.drop 16).take 4 ++ '-' :: d.drop 20)

/-- The error an enumeration raises when constructed from a raw integer
outside its value set; carries the invalid value and the name of the
enumeration it was attempted against, as Python's
`ValueError: <v> is not a valid <Enum>` does. -/
inductive ProtocolError where
  | InvalidProtocolCode (value : Nat) (enumName : String)
deriving DecidableEq, Repr

/-- Python `IntEnum` construction from a raw integer: return the member
whose value equals `v`, or fail.  `members` lists the members in
definition order, as the enumeration's value-to-member table does. -/
def enumLookup {α : Type} (members : List α) (val : α → Nat) (enumName : String)
    (v : Nat) : Except ProtocolError α :=
  match members.find? (fun m => val m == v) with
  | some m => Except.ok m
  | none => Except.error (ProtocolError.InvalidProtocolCode v enumName)

/-- BLE Characteristics of Dot devices (`DotCharacteristic`). -/
inductive DotCharacteristic where
  | SERVICE
  | LED_COMMAND
  | STATUS
deriving DecidableEq, Repr

/-- The 16-bit short codes of `DotCharacteristic` members. -/
def DotCharacteristic.value : DotCharacteristic → Nat
  | .SERVICE => 0x1234
  | .LED_COMMAND => 0x1235
  | .STATUS => 0x1236

/-- Members of `DotCharacteristic` in definition order. -/
def DotCharacteristic.members : List DotCharacteristic :=
  [.SERVICE, .LED_COMMAND, .STATUS]

/-- The pure computation behind the `uuid` cached property:
`UUID(UUID_TEMPLATE.format(self.value))`, rendered to its canonical
string.  `none` models the `ValueError` path of the `UUID` constructor. -/
def DotCharacteristic.uuid (c : DotCharacteristic) : Option String :=
  (pyUUID_fromHex (UUID_TEMPLATE_format c.value)).map uuidCanonicalString

/-- LEDs on the device (`LuxaforLED`). -/
inductive LuxaforLED where
  | LEFT
  | RIGHT
  | ALL
deriving DecidableEq, Repr

/-- Integer codes of `LuxaforLED` members. -/
def LuxaforLED.value : LuxaforLED → Nat
  | .LEFT => 1
  | .RIGHT => 2
  | .ALL => 255

/-- Members of `LuxaforLED` in definition order. -/
def LuxaforLED.members : List LuxaforLED := [.LEFT, .RIGHT, .ALL]

/-- `LuxaforLED(v)` from a raw integer. -/
def LuxaforLED.fromValue : Nat → Except ProtocolError LuxaforLED :=
  enumLookup LuxaforLED.members LuxaforLED.value "LuxaforLED"

/-- Acceptable commands for the device (`LuxaforCommand`). -/
inductive LuxaforCommand where
  | COLOR
  | FADE
  | STROBE
  | WAVE
  | PATTERN
deriving DecidableEq, Repr

/-- Opcodes of `LuxaforCommand` members. -/
def LuxaforCommand.value : LuxaforCommand → Nat
  | .COLOR => 0xA1
  | .FADE => 0xA2
  | .STROBE => 0xA3
  | .WAVE => 0xA4
  | .PATTERN => 0xA6

/-- Members of `LuxaforCommand` in definition order. -/
def LuxaforCommand.members : List LuxaforCommand :=
  [.COLOR, .FADE, .STROBE, .WAVE, .PATTERN]

/-- `LuxaforCommand(v)` from a raw integer. -/
def LuxaforCommand.fromValue : Nat → Except ProtocolError LuxaforCommand :=
  enumLookup LuxaforCommand.members LuxaforCommand.value "LuxaforCommand"

/-- Available wave patterns for the device (`LuxaforWavePattern`). -/
inductive LuxaforWavePattern where
  | PATTERN_1
  | PATTERN_2
  | PATTERN_3
  | PATTERN_4
  | PATTERN_5
deriving DecidableEq, Repr

/-- Integer codes of `LuxaforWavePattern` members. -/
def LuxaforWavePattern.value : LuxaforWavePattern → Nat
  | .PATTERN_1 => 1
  | .PATTERN_2 => 2
  | .PATTERN_3 => 3
  | .PATTERN_4 => 4
  | .PATTERN_5 => 5

/-- Members of `LuxaforWavePattern` in definition order. -/
def LuxaforWavePattern.members : List LuxaforWavePattern :=
  [.PATTERN_1, .PATTERN_2, .PATTERN_3, .PATTERN_4, .PATTERN_5]

/-- `LuxaforWavePattern(v)` from a raw integer. -/
def LuxaforWavePattern.fromValue : Nat → Except ProtocolError LuxaforWavePattern :=
  enumLookup LuxaforWavePattern.members LuxaforWavePattern.value "LuxaforWavePattern"

/-- Available patterns for the device (`LuxaforPattern`). -/
inductive LuxaforPattern where
  | PATTERN_POLICE
  | PATTERN_RAINBOW
  | PATTERN_STOPLIGHT
  | PATTERN_RANDOM1
  | PATTERN_RANDOM2
  | PATTERN_RANDOM3
  | PATTERN_RANDOM4
  | PATTERN_RANDOM5
deriving DecidableEq, Repr

/-- Integer codes of `LuxaforPattern` members (externally fixed device
codes; deliberately non-sequential). -/
def LuxaforPattern.value : LuxaforPattern → Nat
  | .PATTERN_POLICE => 5
  | .PATTERN_RAINBOW => 8
  | .PATTERN_STOPLIGHT => 1
  | .PATTERN_RANDOM1 => 2
  | .PATTERN_RANDOM2 => 3
  | .PATTERN_RANDOM3 => 4
  | .PATTERN_RANDOM4 => 6
  | .PATTERN_RANDOM5 => 7

/-- Members of `LuxaforPattern` in definition order. -/
def LuxaforPattern.members : List LuxaforPattern :=
  [.PATTERN_POLICE, .PATTERN_RAINBOW, .PATTERN_STOPLIGHT, .PATTERN_RANDOM1,
   .PATTERN_RANDOM2, .PATTERN_RANDOM3, .PATTERN_RANDOM4, .PATTERN_RANDOM5]

/-- `LuxaforPattern(v)` from a raw integer. -/
def LuxaforPattern.fromValue : Nat → Except ProtocolError LuxaforPattern :=
  enumLookup LuxaforPattern.members LuxaforPattern.value "LuxaforPattern"

/-- Expected responses from the device (`PushEvent`). -/
inductive PushEvent where
  | MALFORMED
  | OKAY
  | WAKEUP
  | HELLO
deriving DecidableEq, Repr

/-- Byte codes of `PushEvent` members. -/
def PushEvent.value : PushEvent → Nat
  | .MALFORMED => 0x30
  | .OKAY => 0x31
  | .WAKEUP => 0x32
  | .HELLO => 0x33

/-- Members of `PushEvent` in definition order. -/
def PushEvent.members : List PushEvent := [.MALFORMED, .OKAY, .WAKEUP, .HELLO]

/-- `PushEvent(v)` from a raw integer. -/
def PushEvent.fromValue : Nat → Except ProtocolError PushEvent :=
  enumLookup PushEvent.members PushEvent.value "PushEvent"

/-- `DotCharacteristic(v)` from a raw integer. -/
def DotCharacteristic.fromValue : Nat → Except ProtocolError DotCharacteristic :=
  enumLookup DotCharacteristic.members DotCharacteristic.value "DotCharacteristic"

/-- Modelled from the spec: the validation operation `isSupportedDeviceName`
is not part of the provided source (only the `LUXAFOR_BLUETOOTH_NAMES`
constant and its comment "We only check the first 7 chars" are).  Per the
spec, compare the first 7 characters of `name` (or the full string if
shorter) against each entry of the accepted-prefix set and return true if
any entry matches exactly. -/
def isSupportedDeviceName (name : String) : Bool :=
  LUXAFOR_BLUETOOTH_NAMES.any (fun p => name.data.take 7 == p.data)

/-- Match two hexadecimal digits (`[0-9A-Fa-f]{2}`) at the head of `l`,
returning the remainder on success. -/
def matchHexPair : List Char → Option (List Char)
  | a :: b :: rest =>
    if isHexDigitChar a && isHexDigitChar b then some rest else none
  | _ => none

/-- Match one group `[0-9A-Fa-f]{2}:` at the head of `l`. -/
def matchHexPairColon (l : List Char) : Option (List Char) :=
  match matchHexPair l with
  | some (c :: rest) => if c = ':' then some rest else none
  | _ => none

/-- Match `n` repetitions of the group `[0-9A-Fa-f]{2}:`. -/
def matchGroups : Nat → List Char → Option (List Char)
  | 0, l => some l
  | n + 1, l =>
    match matchHexPairColon l with
    | some rest => matchGroups n rest
    | none => none

/-- Modelled from the spec: the source defines only the compiled pattern
`MAC_ADDRESS_REGEX = ^([0-9A-Fa-f]{2}:){5}([0-9A-Fa-f]{2})$`; the
validation operation `isValidMacAddress` applying it is absent.  Per the
spec the whole string must conform, with no leading or trailing
characters, so the pattern body — five `[0-9A-Fa-f]{2}:` groups followed
by one `[0-9A-Fa-f]{2}` — must consume the entire input. -/
def isValidMacAddress (s : String) : Bool :=
  match matchGroups 5 s.data with
  | some rest => matchHexPair rest == some []
  | none => false

/-- One call of the `uuid` cached property under an explicit cache state:
a hit returns the stored value unchanged; a miss runs the underlying
computation and, when it succeeds, stores the result for the member
(`functools.cached_property` stores nothing when the computation raises). -/
def uuidWithCache (st : DotCharacteristic → Option String) (c : DotCharacteristic) :
    Option String × (DotCharacteristic → Option String) :=
  match st c with
  | some u => (some u, st)
  | none =>
    match DotCharacteristic.uuid c with
    | some u => (some u, fun c2 => if c2 = c then some u else st c2)
    | none => (none, st)

/-- A cache state is valid when every stored entry equals the result of
the underlying pure computation for that member. -/
def ValidUuidCache (st : DotCharacteristic → Option String) : Prop :=
  ∀ c u, st c = some u → DotCharacteristic.uuid c = some u

/-- Claim-side predicate: `s` is a syntactically valid lowercase hyphenated
RFC 4122 UUID string — 36 characters, hyphens exactly at positions
8, 13, 18 and 23, lowercase hexadecimal digits everywhere else.  This
states the spec's "canonical UUID regex" property; it is not part of the
source. -/
def isCanonicalUuidLower (s : String) : Bool :=
  s.data.length == 36 &&
  s.data.enum.all (fun ic =>
    if ic.1 == 8 || ic.1 == 13 || ic.1 == 18 || ic.1 == 23 then ic.2 == '-'
    else (('0' ≤ ic.2) && (ic.2 ≤ '9')) || (('a' ≤ ic.2) && (ic.2 ≤ 'f')))

/-- Claim-side predicate: the whole string is exactly six groups of two
hexadecimal digits (either case) separated by colons.  This states the
spec's description of a well-formed MAC address; it is not part of the
source. -/
def specMacShape (s : String) : Bool :=
  match s.data with
  | [a, b, s1, c, d, s2, e, f, s3, g, h, s4, i, j, s5, k, l] =>
    s1 == ':' && s2 == ':' && s3 == ':' && s4 == ':' && s5 == ':' &&
    isHexDigitChar a && isHexDigitChar b && isHexDigitChar c &&
    isHexDigitChar d && isHexDigitChar e && isHexDigitChar f &&
    isHexDigitChar g && isHexDigitChar h && isHexDigitChar i &&
    isHexDigitChar j && isHexDigitChar k && isHexDigitChar l
  | _ => false

/-- C1: for every one of the three `DotCharacteristic` values, the derived
UUID equals the fixed vendor template with the member's 16-bit short code
substituted as a 4-digit zero-padded lowercase hexadecimal field:
`SERVICE = 0x1234` yields `00001234-0000-1000-8000-00805f9b34fb`,
`LED_COMMAND = 0x1235` yields `00001235-0000-1000-8000-00805f9b34fb`,
`STATUS = 0x1236` yields `00001236-0000-1000-8000-00805f9b34fb`, each a
syntactically valid lowercase hyphenated RFC 4122 UUID string. -/
theorem dotCharacteristic_uuid_spec :
    (∀ c : DotCharacteristic,
      DotCharacteristic.uuid c = some (UUID_TEMPLATE_format c.value) ∧
      isCanonicalUuidLower (UUID_TEMPLATE_format c.value) = true) ∧
    DotCharacteristic.uuid DotCharacteristic.SERVICE
      = some "00001234-0000-1000-8000-00805f9b34fb" ∧
    DotCharacteristic.uuid DotCharacteristic.LED_COMMAND
      = some "00001235-0000-1000-8000-00805f9b34fb" ∧
    DotCharacteristic.uuid DotCharacteristic.STATUS
      = some "00001236-0000-1000-8000-00805f9b34fb" := by
  refine ⟨fun c => ?_, by decide, by decide, by decide⟩
  cases c <;> exact ⟨by decide, by decide⟩

/-- C5: the `LuxaforPattern` enumeration maps its semantic names to the
externally fixed, non-sequential device codes: RAINBOW is 8, STOPLIGHT
is 1, POLICE is 5, and RANDOM1 through RANDOM5 are 2, 3, 4, 6, 7; in
particular RAINBOW never equals STOPLIGHT. -/
theorem luxaforPattern_codes :
    LuxaforPattern.value LuxaforPattern.PATTERN_RAINBOW = 8 ∧
    LuxaforPattern.value LuxaforPattern.PATTERN_STOPLIGHT = 1 ∧
    LuxaforPattern.value LuxaforPattern.PATTERN_POLICE = 5 ∧
    LuxaforPattern.value LuxaforPattern.PATTERN_RANDOM1 = 2 ∧
    LuxaforPattern.value LuxaforPattern.PATTERN_RANDOM2 = 3 ∧
    LuxaforPattern.value LuxaforPattern.PATTERN_RANDOM3 = 4 ∧
    LuxaforPattern.value LuxaforPattern.PATTERN_RANDOM4 = 6 ∧
    LuxaforPattern.value LuxaforPattern.PATTERN_RANDOM5 = 7 ∧
    LuxaforPattern.value LuxaforPattern.PATTERN_RAINBOW
      ≠ LuxaforPattern.value LuxaforPattern.PATTERN_STOPLIGHT := by
  decide

/-- C7: the protocol vocabulary constants equal the spec's tables:
`LuxaforCommand` opcodes are exactly COLOR, FADE, STROBE, WAVE, PATTERN
with codes 0xA1, 0xA2, 0xA3, 0xA4, 0xA6; `LuxaforLED` members are exactly
LEFT = 1, RIGHT = 2, ALL = 255; `LuxaforWavePattern` members are exactly
the integers 1 through 5; `PushEvent` codes are exactly MALFORMED = 0x30,
OKAY = 0x31, WAKEUP = 0x32, HELLO = 0x33; the placeholder byte is 0x00. -/
theorem protocol_vocabulary_spec :
    (∀ m : LuxaforCommand, m ∈ LuxaforCommand.members) ∧
    LuxaforCommand.members.map LuxaforCommand.value = [0xA1, 0xA2, 0xA3, 0xA4, 0xA6] ∧
    (∀ m : LuxaforLED, m ∈ LuxaforLED.members) ∧
    LuxaforLED.members.map LuxaforLED.value = [1, 2, 255] ∧
    (∀ m : LuxaforWavePattern, m ∈ LuxaforWavePattern.members) ∧
    LuxaforWavePattern.members.map LuxaforWavePattern.value = [1, 2, 3, 4, 5] ∧
    (∀ m : PushEvent, m ∈ PushEvent.members) ∧
    PushEvent.members.map PushEvent.value = [0x30, 0x31, 0x32, 0x33] ∧
    LUXAFOR_DONT_CARE = 0x00 := by
  refine ⟨fun m => by cases m <;> decide, by decide, fun m => by cases m <;> decide,
    by decide, fun m => by cases m <;> decide, by decide,
    fun m => by cases m <;> decide, by decide, by decide⟩

/-- C8: the validation predicates `isSupportedDeviceName` and
`isValidMacAddress` are total: every input string, the empty string
included, is mapped to a boolean; there is no error outcome. -/
theorem validators_total :
    (∀ s : String,
      (isSupportedDeviceName s = false ∨ isSupportedDeviceName s = true) ∧
      (isValidMacAddress s = false ∨ isValidMacAddress s = true)) ∧
    isSupportedDeviceName "" = false ∧ isValidMacAddress "" = false := by
  refine ⟨fun s => ⟨?_, ?_⟩, by decide, by decide⟩ <;>
    cases h : isValidMacAddress s <;> cases h2 : isSupportedDeviceName s <;> simp

/-- C9: every `DotCharacteristic` short code is a 16-bit value, so the
zero-padded hexadecimal field in the UUID template formats to exactly 4
digits for every member and the UUID construction inside the `uuid`
property cannot fail: derivation is total over the closed enumeration. -/
theorem dotCharacteristic_uuid_total :
    ∀ c : DotCharacteristic,
      DotCharacteristic.value c < 0x10000 ∧
      (padLeftZero 4 (Nat.toDigits 16 (DotCharacteristic.value c))).length = 4 ∧
      (DotCharacteristic.uuid c).isSome = true := by
  intro c
  cases c <;> exact ⟨by decide, by decide, by decide⟩

/-- C10: within each of the six enumerations, all named members have
pairwise distinct integer values (no member aliases another), so decoding
an in-set raw integer back to a member is unambiguous. -/
theorem enum_values_injective :
    (∀ a b : DotCharacteristic, DotCharacteristic.value a = DotCharacteristic.value b → a = b) ∧
    (∀ a b : LuxaforLED, LuxaforLED.value a = LuxaforLED.value b → a = b) ∧
    (∀ a b : LuxaforCommand, LuxaforCommand.value a = LuxaforCommand.value b → a = b) ∧
    (∀ a b : LuxaforWavePattern, LuxaforWavePattern.value a = LuxaforWavePattern.value b → a = b) ∧
    (∀ a b : LuxaforPattern, LuxaforPattern.value a = LuxaforPattern.value b → a = b) ∧
    (∀ a b : PushEvent, PushEvent.value a = PushEvent.value b → a = b) := by
  refine ⟨fun a b h => ?_, fun a b h => ?_, fun a b h => ?_, fun a b h => ?_,
    fun a b h => ?_, fun a b h => ?_⟩ <;>
    cases a <;> cases b <;> first | rfl | exact absurd h (by decide)

/-- Witness for C10 at a concrete input: the `DotCharacteristic` clause
applied to two members with equal value 0x1234. -/
theorem enum_values_injective_witness :
    DotCharacteristic.SERVICE = DotCharacteristic.SERVICE :=
  enum_values_injective.1 DotCharacteristic.SERVICE DotCharacteristic.SERVICE (by decide)

/-- C3: `isSupportedDeviceName` compares the first 7 characters of the
name against each entry of the accepted-prefix set (exactly `"lux dot"`)
and returns true exactly when some entry matches as a case-sensitive
prefix; `"lux dot 42"` is accepted, while `"LUX DOT"`, `"lux d"` and the
empty string are rejected. -/
theorem isSupportedDeviceName_spec :
    (∀ name : String, isSupportedDeviceName name = true ↔ "lux dot".data <+: name.data) ∧
    isSupportedDeviceName "lux dot 42" = true ∧
    isSupportedDeviceName "LUX DOT" = false ∧
    isSupportedDeviceName "lux d" = false ∧
    isSupportedDeviceName "" = false := by
  refine ⟨fun name => ?_, by decide, by decide, by decide, by decide⟩
  have h7 : ("lux dot".data).length = 7 := by decide
  simp only [isSupportedDeviceName, LUXAFOR_BLUETOOTH_NAMES, List.any_cons, List.any_nil,
    Bool.or_false, beq_iff_eq]
  rw [List.prefix_iff_eq_take, h7]
  exact ⟨fun h => h.symm, fun h => h.symm⟩

/-- Python `IntEnum` lookup through the member list: an in-set raw value
yields the member carrying it, an out-of-set raw value yields the
`InvalidProtocolCode` error naming the enumeration and the value. -/
theorem enumLookup_spec {α : Type} (members : List α) (val : α → Nat) (nm : String)
    (v : Nat) :
    (v ∈ members.map val →
      ∃ m, enumLookup members val nm v = Except.ok m ∧ val m = v) ∧
    (v ∉ members.map val →
      enumLookup members val nm v
        = Except.error (ProtocolError.InvalidProtocolCode v nm)) := by
  constructor
  · intro hv
    unfold enumLookup
    cases h : members.find? (fun m => val m == v) with
    | some m =>
      refine ⟨m, rfl, ?_⟩
      have := List.find?_some h
      simpa using this
    | none =>
      exfalso
      rcases List.mem_map.mp hv with ⟨m, hm, hval⟩
      have hnone := List.find?_eq_none.mp h m hm
      simp [hval] at hnone
  · intro hv
    unfold enumLookup
    cases h : members.find? (fun m => val m == v) with
    | some m =>
      exfalso
      have hmem := List.mem_of_find?_eq_some h
      have hval : val m = v := by simpa using List.find?_some h
      exact hv (List.mem_map.mpr ⟨m, hmem, hval⟩)
    | none => rfl

/-- C4: converting a raw integer into any of the five closed enumerations
succeeds exactly when the integer is in the enumeration's value set, and
otherwise fails with `InvalidProtocolCode` carrying the invalid value and
the enumeration name, never silently coercing; in particular `PushEvent`
from 0x34 fails while from 0x31 succeeds and equals OKAY. -/
theorem enum_construction_spec :
    (∀ v : Nat,
      (v ∈ LuxaforCommand.members.map LuxaforCommand.value →
        ∃ m, LuxaforCommand.fromValue v = Except.ok m ∧ LuxaforCommand.value m = v) ∧
      (v ∉ LuxaforCommand.members.map LuxaforCommand.value →
        LuxaforCommand.fromValue v
          = Except.error (ProtocolError.InvalidProtocolCode v "LuxaforCommand"))) ∧
    (∀ v : Nat,
      (v ∈ LuxaforLED.members.map LuxaforLED.value →
        ∃ m, LuxaforLED.fromValue v = Except.ok m ∧ LuxaforLED.value m = v) ∧
      (v ∉ LuxaforLED.members.map LuxaforLED.value →
        LuxaforLED.fromValue v
          = Except.error (ProtocolError.InvalidProtocolCode v "LuxaforLED"))) ∧
    (∀ v : Nat,
      (v ∈ LuxaforWavePattern.members.map LuxaforWavePattern.value →
        ∃ m, LuxaforWavePattern.fromValue v = Except.ok m ∧ LuxaforWavePattern.value m = v) ∧
      (v ∉ LuxaforWavePattern.members.map LuxaforWavePattern.value →
        LuxaforWavePattern.fromValue v
          = Except.error (ProtocolError.InvalidProtocolCode v "LuxaforWavePattern"))) ∧
    (∀ v : Nat,
      (v ∈ LuxaforPattern.members.map LuxaforPattern.value →
        ∃ m, LuxaforPattern.fromValue v = Except.ok m ∧ LuxaforPattern.value m = v) ∧
      (v ∉ LuxaforPattern.members.map LuxaforPattern.value →
        LuxaforPattern.fromValue v
          = Except.error (ProtocolError.InvalidProtocolCode v "LuxaforPattern"))) ∧
    (∀ v : Nat,
      (v ∈ PushEvent.members.map PushEvent.value →
        ∃ m, PushEvent.fromValue v = Except.ok m ∧ PushEvent.value m = v) ∧
      (v ∉ PushEvent.members.map PushEvent.value →
        PushEvent.fromValue v
          = Except.error (ProtocolError.InvalidProtocolCode v "PushEvent"))) ∧
    PushEvent.fromValue 0x34
      = Except.error (ProtocolError.InvalidProtocolCode 0x34 "PushEvent") ∧
    PushEvent.fromValue 0x31 = Except.ok PushEvent.OKAY := by
  exact ⟨fun v => enumLookup_spec _ _ _ v, fun v => enumLookup_spec _ _ _ v,
    fun v => enumLookup_spec _ _ _ v, fun v => enumLookup_spec _ _ _ v,
    fun v => enumLookup_spec _ _ _ v, by rfl, by rfl⟩

/-- Witness for C4 at concrete inputs: 0x31 is in the `PushEvent` value
set and constructs a member with that value; 0x34 is not and yields the
`InvalidProtocolCode` error. -/
theorem enum_construction_spec_witness :
    (∃ m, PushEvent.fromValue 0x31 = Except.ok m ∧ PushEvent.value m = 0x31) ∧
    PushEvent.fromValue 0x34
      = Except.error (ProtocolError.InvalidProtocolCode 0x34 "PushEvent") :=
  ⟨(enum_construction_spec.2.2.2.2.1 0x31).1 (by decide),
   (enum_construction_spec.2.2.2.2.1 0x34).2 (by decide)⟩

/-- C6: UUID derivation is deterministic and idempotent under the
caching of `functools.cached_property`: starting from any cache state
consistent with the pure computation, one call returns exactly the pure
result, a second call on the resulting state returns the identical
value, and the state stays consistent. -/
theorem uuid_cached_deterministic :
    ∀ (st : DotCharacteristic → Option String) (c : DotCharacteristic),
      ValidUuidCache st →
      (uuidWithCache st c).1 = DotCharacteristic.uuid c ∧
      (uuidWithCache (uuidWithCache st c).2 c).1 = (uuidWithCache st c).1 ∧
      ValidUuidCache (uuidWithCache st c).2 := by
  intro st c hst
  cases h : st c with
  | some u =>
    have hu : DotCharacteristic.uuid c = some u := hst c u h
    exact ⟨by simp [uuidWithCache, h, hu], by simp [uuidWithCache, h, hu],
      by simpa [uuidWithCache, h] using hst⟩
  | none =>
    cases hu : DotCharacteristic.uuid c with
    | some u =>
      refine ⟨by simp [uuidWithCache, h, hu], by simp [uuidWithCache, h, hu], ?_⟩
      intro c2 u2 h2
      simp only [uuidWithCache, h, hu] at h2
      by_cases hc : c2 = c
      · subst hc
        simp at h2
        rw [← h2]
        exact hu
      · simp [hc] at h2
        exact hst c2 u2 h2
    | none =>
      refine ⟨by simp [uuidWithCache, h, hu], by simp [uuidWithCache, h, hu], ?_⟩
      simpa [uuidWithCache, h, hu] using hst

/-- Witness for C6 at a concrete input: the empty cache is consistent,
and calling the cached derivation on SERVICE returns the pure result. -/
theorem uuid_cached_deterministic_witness :
    (uuidWithCache (fun _ => none) DotCharacteristic.SERVICE).1
      = DotCharacteristic.uuid DotCharacteristic.SERVICE :=
  (uuid_cached_deterministic (fun _ => none) DotCharacteristic.SERVICE
    (fun _ _ h => Option.noConfusion h)).1

/-- `matchHexPair` succeeds exactly on a head of two hexadecimal digits,
returning the rest. -/
theorem matchHexPair_eq_some (l r : List Char) :
    matchHexPair l = some r ↔
      ∃ a b, l = a :: b :: r ∧ isHexDigitChar a = true ∧ isHexDigitChar b = true := by
  rcases l with _ | ⟨a, _ | ⟨b, t⟩⟩
  · simp [matchHexPair]
  · simp [matchHexPair]
  · cases ha : isHexDigitChar a <;> cases hb : isHexDigitChar b
    case false.false | false.true =>
      refine iff_of_false (by simp [matchHexPair, ha, hb]) ?_
      rintro ⟨a2, b2, heq, ha2, hb2⟩
      injection heq with h1 h2
      subst h1
      simp [ha] at ha2
    case true.false =>
      refine iff_of_false (by simp [matchHexPair, ha, hb]) ?_
      rintro ⟨a2, b2, heq, ha2, hb2⟩
      injection heq with h1 h2
      injection h2 with h3 h4
      subst h3
      simp [hb] at hb2
    case true.true =>
      constructor
      · intro h
        simp only [matchHexPair, ha, hb, Bool.and_self, if_true, Option.some_inj] at h
        subst h
        exact ⟨a, b, rfl, ha, hb⟩
      · rintro ⟨a2, b2, heq, ha2, hb2⟩
        injection heq with h1 h2
        injection h2 with h3 h4
        subst h4
        simp [matchHexPair, ha, hb]

/-- `matchHexPairColon` succeeds exactly on a head of two hexadecimal
digits followed by a colon, returning the rest. -/
theorem matchHexPairColon_eq_some (l r : List Char) :
    matchHexPairColon l = some r ↔
      ∃ a b, l = a :: b :: ':' :: r ∧ isHexDigitChar a = true ∧ isHexDigitChar b = true := by
  constructor
  · intro hm
    unfold matchHexPairColon at hm
    split at hm
    next c rest h =>
      split at hm
      next hc =>
        obtain ⟨a, b, hl, ha, hb⟩ := (matchHexPair_eq_some l (c :: rest)).mp h
        exact ⟨a, b, by rw [hl, hc, Option.some_inj.mp hm], ha, hb⟩
      next => exact absurd hm (by simp)
    next => exact absurd hm (by simp)
  · rintro ⟨a, b, rfl, ha, hb⟩
    have h : matchHexPair (a :: b :: ':' :: r) = some (':' :: r) := by
      simp [matchHexPair, ha, hb]
    unfold matchHexPairColon
    rw [h]
    simp

/-- Unfolding one counted repetition of the `[0-9A-Fa-f]{2}:` group. -/
theorem matchGroups_succ (n : Nat) (l r : List Char) :
    matchGroups (n + 1) l = some r ↔
      ∃ a b t, l = a :: b :: ':' :: t ∧ isHexDigitChar a = true ∧
        isHexDigitChar b = true ∧ matchGroups n t = some r := by
  constructor
  · intro hm
    unfold matchGroups at hm
    split at hm
    next rest h =>
      obtain ⟨a, b, hl, ha, hb⟩ := (matchHexPairColon_eq_some l rest).mp h
      exact ⟨a, b, rest, hl, ha, hb, hm⟩
    next => exact absurd hm (by simp)
  · rintro ⟨a, b, t, rfl, ha, hb, hm⟩
    have hc : matchHexPairColon (a :: b :: ':' :: t) = some t :=
      (matchHexPairColon_eq_some _ _).mpr ⟨a, b, rfl, ha, hb⟩
    unfold matchGroups
    rw [hc]
    exact hm

/-- Whenever the matcher built from `MAC_ADDRESS_REGEX` accepts, the
string has the six-group shape of the spec. -/
theorem isValidMacAddress_imp_shape (s : String) :
    isValidMacAddress s = true → specMacShape s = true := by
  intro hv
  unfold isValidMacAddress at hv
  split at hv
  next rest h5 =>
    have hpair : matchHexPair rest = some [] := by
      simpa using hv
    obtain ⟨a1, b1, t1, he1, ha1, hb1, h4⟩ := (matchGroups_succ 4 s.data rest).mp h5
    obtain ⟨a2, b2, t2, he2, ha2, hb2, h3⟩ := (matchGroups_succ 3 t1 rest).mp h4
    obtain ⟨a3, b3, t3, he3, ha3, hb3, h2⟩ := (matchGroups_succ 2 t2 rest).mp h3
    obtain ⟨a4, b4, t4, he4, ha4, hb4, h1⟩ := (matchGroups_succ 1 t3 rest).mp h2
    obtain ⟨a5, b5, t5, he5, ha5, hb5, h0⟩ := (matchGroups_succ 0 t4 rest).mp h1
    obtain rfl : t5 = rest := Option.some_inj.mp h0
    obtain ⟨a6, b6, he6, ha6, hb6⟩ := (matchHexPair_eq_some t5 []).mp hpair
    subst he6 he5 he4 he3 he2
    simp [specMacShape, he1, ha1, hb1, ha2, hb2, ha3, hb3, ha4, hb4, ha5, hb5, ha6, hb6]
  next => exact absurd hv (by simp)

/-- Whenever the string has the six-group shape of the spec, the matcher
built from `MAC_ADDRESS_REGEX` accepts. -/
theorem shape_imp_isValidMacAddress (s : String) :
    specMacShape s = true → isValidMacAddress s = true := by
  intro hs
  unfold specMacShape at hs
  split at hs
  next a b s1 c d s2 e f s3 g h s4 i j s5 k l heq =>
    simp only [Bool.and_eq_true, beq_iff_eq] at hs
    obtain ⟨⟨⟨⟨⟨⟨⟨⟨⟨⟨⟨⟨⟨⟨⟨⟨hs1, hs2⟩, hs3⟩, hs4⟩, hs5⟩, ha⟩, hb⟩, hc⟩, hd⟩,
      he⟩, hf⟩, hg⟩, hh⟩, hi⟩, hj⟩, hk⟩, hl⟩ := hs
    subst hs1 hs2 hs3 hs4 hs5
    have h0 : matchGroups 0 ([k, l] : List Char) = some [k, l] := rfl
    have h1 : matchGroups 1 (i :: j :: ':' :: [k, l]) = some [k, l] :=
      (matchGroups_succ 0 _ _).mpr ⟨i, j, [k, l], rfl, hi, hj, h0⟩
    have h2 : matchGroups 2 (g :: h :: ':' :: i :: j :: ':' :: [k, l]) = some [k, l] :=
      (matchGroups_succ 1 _ _).mpr ⟨g, h, _, rfl, hg, hh, h1⟩
    have h3 : matchGroups 3 (e :: f :: ':' :: g :: h :: ':' :: i :: j :: ':' :: [k, l])
        = some [k, l] :=
      (matchGroups_succ 2 _ _).mpr ⟨e, f, _, rfl, he, hf, h2⟩
    have h4 : matchGroups 4
        (c :: d :: ':' :: e :: f :: ':' :: g :: h :: ':' :: i :: j :: ':' :: [k, l])
        = some [k, l] :=
      (matchGroups_succ 3 _ _).mpr ⟨c, d, _, rfl, hc, hd, h3⟩
    have h5 : matchGroups 5 s.data = some [k, l] := by
      rw [heq]
      exact (matchGroups_succ 4 _ _).mpr ⟨a, b, _, rfl, ha, hb, h4⟩
    unfold isValidMacAddress
    rw [h5]
    simp [matchHexPair, hk, hl]
  next => exact absurd hs (by simp)

/-- C2: the matcher of `MAC_ADDRESS_REGEX` accepts a string exactly when
the whole string is six groups of two hexadecimal digits (either case)
separated by colons, with nothing before or after; in particular
`"AA:BB:CC:DD:EE:FF"` and `"aa:bb:cc:dd:ee:ff"` are accepted while
`"AA:BB:CC:DD:EE:FG"`, `"AA:BB:CC:DD:EE"` and `"AA-BB-CC-DD-EE-FF"` are
rejected. -/
theorem isValidMacAddress_spec :
    (∀ s : String, isValidMacAddress s = specMacShape s) ∧
    isValidMacAddress "AA:BB:CC:DD:EE:FF" = true ∧
    isValidMacAddress "aa:bb:cc:dd:ee:ff" = true ∧
    isValidMacAddress "AA:BB:CC:DD:EE:FG" = false ∧
    isValidMacAddress "AA:BB:CC:DD:EE" = false ∧
    isValidMacAddress "AA-BB-CC-DD-EE-FF" = false := by
  refine ⟨fun s => ?_, by decide, by decide, by decide, by decide, by decide⟩
  cases hv : isValidMacAddress s with
  | true => exact (isValidMacAddress_imp_shape s hv).symm
  | false =>
    cases hs : specMacShape s with
    | true => exact absurd (shape_imp_isValidMacAddress s hs) (by simp [hv])
    | false => rfl
